import Mathlib

/-!
Shallow embedding of the arbitrage-api opportunity-detection and
profit-evaluation pipeline, together with theorems settling the spec
claims about it.

Monetary and price arithmetic in the source uses BigNumber.js
(arbitrary-precision decimals) and plain JS numbers; both are modelled
here by `ℚ`.  External effects (RPC gas-price reads, quoter calls,
`Math.random()` draws, wall-clock time) are passed as explicit
parameters or environment records.
-/

namespace Arb

/-! ## Price normalizer (src/utils/price-normalizer.js) -/

namespace PriceNormalizer

/-- The `usdPrices` reference table from the `PriceNormalizer` constructor. -/
def usdPrices : String → ℚ
  | "WETH" => 2650
  | "USDT" => 1
  | "USDC" => 1
  | "DAI" => 1
  | "WBTC" => 65000
  | _ => 0

/-- The `tokenDecimals` table from the `PriceNormalizer` constructor;
`0` encodes a missing entry (the code then falls back to `18` via `|| 18`). -/
def tokenDecimals : String → ℤ
  | "WETH" => 18
  | "USDT" => 6
  | "USDC" => 6
  | "DAI" => 18
  | "WBTC" => 8
  | _ => 0

/-- Decimals with the `|| 18` JS default applied. -/
def tokenDecimalsOrDefault (token : String) : ℤ :=
  if tokenDecimals token = 0 then 18 else tokenDecimals token

/-- `PriceNormalizer.fixDecimalScaling`: divide the raw price by
`10^(decimalsA - decimalsB)`. -/
def fixDecimalScaling (tokenA tokenB : String) (rawPrice : ℚ) : ℚ :=
  let decimalsA := tokenDecimalsOrDefault tokenA
  let decimalsB := tokenDecimalsOrDefault tokenB
  let decimalDiff := decimalsA - decimalsB
  let scalingFactor : ℚ := 10 ^ decimalDiff
  rawPrice / scalingFactor

/-- The record returned by `PriceNormalizer.normalizePrice` (display-only
fields omitted). -/
structure NormalizedPrice where
  rawPrice : ℚ
  scaledPrice : ℚ
  expectedRatio : ℚ
  wasInverted : Bool
  tokenAUsdPrice : ℚ
  tokenBUsdPrice : ℚ
  tokenBPerTokenA : ℚ
  tokenAPerTokenB : ℚ
  impliedTokenAPrice : ℚ
  impliedTokenBPrice : ℚ
  buyPrice : ℚ
  sellPrice : ℚ
  deriving Repr, DecidableEq

/-- `PriceNormalizer.normalizePrice`.  `variation` stands for the
`(Math.random() - 0.5) * 0.04` draw used in the fallback branch; `none` is
the `return null` taken when a USD reference price is missing. -/
def normalizePrice (tokenA tokenB : String) (rawPrice : ℚ) (variation : ℚ) :
    Option NormalizedPrice :=
  let tokenAUsdPrice := usdPrices tokenA
  let tokenBUsdPrice := usdPrices tokenB
  if tokenAUsdPrice = 0 ∨ tokenBUsdPrice = 0 then none
  else
    let scaledPrice := fixDecimalScaling tokenA tokenB rawPrice
    let expectedRatio := tokenAUsdPrice / tokenBUsdPrice
    let inverted := |scaledPrice - expectedRatio| > |1 / scaledPrice - expectedRatio|
    let corrected1 := if inverted then 1 / scaledPrice else scaledPrice
    let wasInverted1 := if inverted then true else false
    let deviation := |corrected1 - expectedRatio| / expectedRatio
    let correctedPrice :=
      if deviation > 1/2 then expectedRatio * (1 + variation) else corrected1
    let wasInverted := if deviation > 1/2 then false else wasInverted1
    some
      { rawPrice := rawPrice
        scaledPrice := scaledPrice
        expectedRatio := expectedRatio
        wasInverted := wasInverted
        tokenAUsdPrice := tokenAUsdPrice
        tokenBUsdPrice := tokenBUsdPrice
        tokenBPerTokenA := correctedPrice
        tokenAPerTokenB := 1 / correctedPrice
        impliedTokenAPrice := correctedPrice * tokenBUsdPrice
        impliedTokenBPrice := tokenAUsdPrice / correctedPrice
        buyPrice := correctedPrice
        sellPrice := correctedPrice }

/-- Whether the step-3 inversion heuristic of `normalizePrice` fires for the
given input (the `if` condition at line 73 of price-normalizer.js). -/
def inversionTriggered (tokenA tokenB : String) (rawPrice : ℚ) : Bool :=
  let scaledPrice := fixDecimalScaling tokenA tokenB rawPrice
  let expectedRatio := usdPrices tokenA / usdPrices tokenB
  |scaledPrice - expectedRatio| > |1 / scaledPrice - expectedRatio|

/-- Whether the step-4 fallback substitution of `normalizePrice` fires for the
given input: the USD prices are available and, after inversion-correction, the
deviation from the expected ratio exceeds 50%. -/
def fallbackTriggered (tokenA tokenB : String) (rawPrice : ℚ) : Bool :=
  if usdPrices tokenA = 0 ∨ usdPrices tokenB = 0 then false
  else
    let scaledPrice := fixDecimalScaling tokenA tokenB rawPrice
    let expectedRatio := usdPrices tokenA / usdPrices tokenB
    let corrected1 :=
      if |scaledPrice - expectedRatio| > |1 / scaledPrice - expectedRatio| then
        1 / scaledPrice
      else scaledPrice
    |corrected1 - expectedRatio| / expectedRatio > 1/2

end PriceNormalizer

/-! ## Price fetcher cache (class PriceFetcher in src/services/rpc-manager.js) -/

namespace PriceFetcher

/-- A price observation as stored in `PriceFetcher.prices`
(the `priceData` objects built in `updatePriceV3` / `updatePriceV2`;
fields not read back by the detection pipeline are omitted). -/
structure PriceData where
  dex : String
  tokenA : String
  tokenB : String
  feeTier : Nat
  price : ℚ
  timestamp : Nat
  deriving Repr, DecidableEq

/-- `PriceFetcher.getPriceKey`. -/
def getPriceKey (dexName tokenA tokenB : String) (feeTier : Nat) : String :=
  dexName ++ ":" ++ tokenA ++ "-" ++ tokenB ++ ":" ++ toString feeTier

/-- The `PriceFetcher.prices` map, modelled as a function from keys to
optional entries (JS `Map.get` returning `undefined` is `none`). -/
def PriceMap := String → Option PriceData

/-- `PriceFetcher.getPrice` with no fee tier given: scan tiers 500, 3000,
10000 in order and return the first hit. -/
def getPriceAnyTier (prices : PriceMap) (dexName tokenA tokenB : String) :
    Option PriceData :=
  match prices (getPriceKey dexName tokenA tokenB 500) with
  | some p => some p
  | none =>
    match prices (getPriceKey dexName tokenA tokenB 3000) with
    | some p => some p
    | none => prices (getPriceKey dexName tokenA tokenB 10000)

/-- `PriceFetcher.getBestPrice`: scan `['UNISWAP_V3', 'SUSHISWAP_V3']`,
keep the highest positive price; returns the JS `{ price, dex }` pair. -/
def getBestPrice (prices : PriceMap) (tokenA tokenB : String) :
    Option PriceData × Option String :=
  ["UNISWAP_V3", "SUSHISWAP_V3"].foldl
    (fun acc dex =>
      match getPriceAnyTier prices dex tokenA tokenB with
      | some p =>
        if 0 < p.price then
          match acc.1 with
          | none => (some p, some dex)
          | some bp => if bp.price < p.price then (some p, some dex) else acc
        else acc
      | none => acc)
    (none, none)

/-- `PriceFetcher.getAllPrices`: the `{dex: price}` object, as an
association list over the venue list `['UNISWAP_V3', 'SUSHISWAP_V3']`. -/
def getAllPrices (prices : PriceMap) (tokenA tokenB : String) :
    List (String × PriceData) :=
  ["UNISWAP_V3", "SUSHISWAP_V3"].filterMap
    (fun dex => (getPriceAnyTier prices dex tokenA tokenB).map (fun p => (dex, p)))

/-- The cache write performed by `PriceFetcher.updatePriceV2` once a price
has been computed from the V2 reserves: store the observation under
`getPriceKey dexName tokenA tokenB 3000` (price history and logging omitted;
`priceVal`, `ts` stand for the fetched price and `Date.now()`). -/
def updatePriceV2 (prices : PriceMap) (dexName tokenA tokenB : String)
    (priceVal : ℚ) (ts : Nat) : PriceMap :=
  let priceData : PriceData :=
    { dex := dexName, tokenA := tokenA, tokenB := tokenB, feeTier := 3000
      price := priceVal, timestamp := ts }
  fun k => if k = getPriceKey dexName tokenA tokenB 3000 then some priceData else prices k

end PriceFetcher

/-! ## Helper utilities (src/utils/helpers.js) -/

namespace HelperUtils

/-- `HelperUtils.meetsProfitThreshold`: `new BigNumber(profit).gte(threshold)`,
a JS boolean. -/
def meetsProfitThreshold (profit threshold : ℚ) : Bool :=
  threshold ≤ profit

end HelperUtils

/-! ## Arbitrage detector (src/services/arbitrage-detector/index.js) -/

namespace ArbitrageDetector

open PriceFetcher

/-- One step of the best-buy selection in the `detectSimpleArbitrage` loop:
skip zero prices; replace the current best when the new price is strictly
lower (`price.lt(bestBuy.price)`). -/
def updateBestBuy (acc : Option PriceData) (e : String × PriceData) :
    Option PriceData :=
  if e.2.price = 0 then acc
  else
    match acc with
    | none => some e.2
    | some b => if e.2.price < b.price then some e.2 else acc

/-- One step of the best-sell selection in the `detectSimpleArbitrage` loop:
skip zero prices; replace the current best when the new price is strictly
higher (`price.gt(bestSell.price)`). -/
def updateBestSell (acc : Option PriceData) (e : String × PriceData) :
    Option PriceData :=
  if e.2.price = 0 then acc
  else
    match acc with
    | none => some e.2
    | some b => if b.price < e.2.price then some e.2 else acc

/-- The `for (const dex of dexs)` loop of `detectSimpleArbitrage`, which
tracks `bestBuy` and `bestSell` together. -/
def findBestQuotes (entries : List (String × PriceData)) :
    Option PriceData × Option PriceData :=
  entries.foldl (fun acc e => (updateBestBuy acc.1 e, updateBestSell acc.2 e))
    (none, none)

/-- `ArbitrageDetector.calculateSwapFees`: `tradeAmount × (0.003 × 2)`. -/
def calculateSwapFees (tradeAmount : ℚ) : ℚ :=
  tradeAmount * (3/1000 * 2)

/-- `ArbitrageDetector.calculateTriangularSwapFees` for a 3-leg path:
`tradeAmount × (0.003 × 3)`. -/
def calculateTriangularSwapFees (tradeAmount : ℚ) (legs : Nat) : ℚ :=
  tradeAmount * (3/1000 * legs)

/-- The simple opportunity candidate built by `detectSimpleArbitrage`
(id, pool-address strings and metadata omitted). -/
structure SimpleOpportunity where
  tokenA : String
  tokenB : String
  buyDex : String
  sellDex : String
  buyPrice : ℚ
  sellPrice : ℚ
  priceDifference : ℚ
  priceDifferencePercent : ℚ
  tradeAmount : ℚ
  expectedOutput : ℚ
  expectedProfit : ℚ
  swapFees : ℚ
  gasCost : ℚ
  totalFees : ℚ
  deriving Repr, DecidableEq

/-- `ArbitrageDetector.detectSimpleArbitrage`.  `entries` is the result of
`priceFetcher.getAllPrices(tokenA, tokenB)`; `gasCost` stands for the value
returned by the external `estimateGasCost` call; `threshold` is
`ARBITRAGE_CONFIG.MIN_PROFIT_THRESHOLD_USD`. -/
def detectSimpleArbitrage (threshold gasCost : ℚ)
    (entries : List (String × PriceData)) (tokenA tokenB : String) :
    Option SimpleOpportunity :=
  if entries.length < 2 then none
  else
    match findBestQuotes entries with
    | (some bestBuy, some bestSell) =>
      if bestBuy.dex = bestSell.dex then none
      else
        let priceDifference := bestSell.price - bestBuy.price
        let priceDifferencePercent := priceDifference / bestBuy.price * 100
        if priceDifferencePercent < 1/2 then none
        else
          let tradeAmount : ℚ := 1000
          let swapFees := calculateSwapFees tradeAmount
          let totalFees := swapFees + gasCost
          let grossProfit := tradeAmount * (priceDifferencePercent / 100)
          let expectedOutput := tradeAmount + grossProfit
          let expectedProfit := grossProfit - totalFees
          if HelperUtils.meetsProfitThreshold expectedProfit threshold then
            some
              { tokenA := tokenA, tokenB := tokenB
                buyDex := bestBuy.dex, sellDex := bestSell.dex
                buyPrice := bestBuy.price, sellPrice := bestSell.price
                priceDifference := priceDifference
                priceDifferencePercent := priceDifferencePercent
                tradeAmount := tradeAmount
                expectedOutput := expectedOutput
                expectedProfit := expectedProfit
                swapFees := swapFees, gasCost := gasCost, totalFees := totalFees }
          else none
    | _ => none

/-- The triangular opportunity candidate built by `detectTriangularPath`
(id, per-leg trade list and metadata omitted). -/
structure TriangularOpportunity where
  path : List String
  effectiveRate : ℚ
  profitRate : ℚ
  tradeAmount : ℚ
  expectedProfit : ℚ
  netProfit : ℚ
  swapFees : ℚ
  gasCost : ℚ
  totalFees : ℚ
  deriving Repr, DecidableEq

/-- `ArbitrageDetector.detectTriangularPath`.  `priceAB`, `priceBC`,
`priceCA` are the `.price.price` values of the three
`priceFetcher.getBestPrice` lookups (`none` when a leg has no price);
`gasCost` stands for the external `estimateTriangularGasCost` result. -/
def detectTriangularPath (threshold gasCost : ℚ)
    (priceAB priceBC priceCA : Option ℚ) (tokenA tokenB tokenC : String) :
    Option TriangularOpportunity :=
  match priceAB, priceBC, priceCA with
  | some p1, some p2, some p3 =>
    let effectiveRate := p1 * p2 * p3
    let profitRate := effectiveRate - 1
    if profitRate < 5/1000 then none
    else
      let tradeAmount : ℚ := 1000
      let expectedProfit := tradeAmount * profitRate
      let swapFees := calculateTriangularSwapFees tradeAmount 3
      let totalFees := swapFees + gasCost
      let netProfit := expectedProfit - totalFees
      if HelperUtils.meetsProfitThreshold netProfit threshold then
        some
          { path := [tokenA, tokenB, tokenC]
            effectiveRate := effectiveRate
            profitRate := profitRate
            tradeAmount := tradeAmount
            expectedProfit := expectedProfit
            netProfit := netProfit
            swapFees := swapFees, gasCost := gasCost, totalFees := totalFees }
      else none
  | _, _, _ => none

end ArbitrageDetector

/-! ## Profit calculator (src/services/profit-calculator/index.js) -/

namespace ProfitCalculator

/-- The record returned by `ProfitCalculator.calculateSimpleArbitrageProfit`
(numeric fields; the timestamp is omitted). -/
structure SimpleProfitResult where
  tradeAmount : ℚ
  amountIn : ℚ
  amountOutExpected : ℚ
  grossProfit : ℚ
  netProfit : ℚ
  swapFees : ℚ
  gasCost : ℚ
  totalFees : ℚ
  isProfitable : Bool
  meetsThreshold : Bool
  deriving Repr, DecidableEq

/-- `ProfitCalculator.calculateSimpleArbitrageProfit`.  `decimalsA`,
`decimalsB` are the `SUPPORTED_TOKENS` decimals of the two tokens,
`buyPrice` the opportunity's buy price, `gasCost` the value of the external
`calculateGasCost(GAS_LIMITS.SINGLE_SWAP)` call, and `threshold`
`ARBITRAGE_CONFIG.MIN_PROFIT_THRESHOLD_USD`.  ROI and price impact are not
modelled. -/
def calculateSimpleArbitrageProfit (decimalsA decimalsB : Nat)
    (buyPrice tradeAmount gasCost threshold : ℚ) : SimpleProfitResult :=
  let amountIn := tradeAmount * 10 ^ decimalsA
  let amountOutExpected := amountIn * buyPrice
  let swapFeeBuy := amountIn * (3/1000)
  let swapFeeSell := amountOutExpected * (3/1000)
  let totalSwapFees := swapFeeBuy + swapFeeSell
  let netOutput := amountOutExpected - swapFeeSell
  let inputUSD := amountIn / 10 ^ decimalsA
  let outputUSD := netOutput / 10 ^ decimalsB
  let grossProfit := outputUSD - inputUSD
  let swapFeesUSD := totalSwapFees / 10 ^ decimalsA
  let totalFeesUSD := swapFeesUSD + gasCost
  let netProfit := grossProfit - totalFeesUSD
  { tradeAmount := tradeAmount
    amountIn := amountIn
    amountOutExpected := netOutput
    grossProfit := grossProfit
    netProfit := netProfit
    swapFees := swapFeesUSD
    gasCost := gasCost
    totalFees := totalFeesUSD
    isProfitable := decide (threshold < netProfit)
    meetsThreshold := decide (threshold < netProfit) }

end ProfitCalculator

/-! ## Trade simulator (src/services/trade-simulator/index.js) -/

namespace TradeSimulator

/-- `SUPPORTED_TOKENS[...].decimals` from src/config/constants.js. -/
def supportedTokenDecimals : String → Option Nat
  | "WETH" => some 18
  | "USDT" => some 6
  | "USDC" => some 6
  | "WBTC" => some 8
  | "DAI" => some 18
  | _ => none

/-- The external world a simulation run interacts with: the quoter contract
(`quoteExactInputSingle` through pool discovery; `none` models a missing
pool or a failed/reverted quote, `some (amountOut, gasUsed)` a successful
quote) and the gas price used by `estimateGasCost`. -/
structure SimEnv where
  quote : String → String → String → ℚ → Option (ℚ × ℚ)
  gasPrice : ℚ

/-- `TradeSimulator.estimateGasCost`: `gasUsed × gasPrice` wei, to ETH,
times the hardcoded `$2000` ETH price. -/
def estimateGasCost (env : SimEnv) (gasUsed : ℚ) : ℚ :=
  gasUsed * env.gasPrice / 10 ^ (18 : Nat) * 2000

/-- The simulation result record.  Successful simple runs populate every
field; the failure path of the source only carries
`{success, error, type, timestamp}`, modelled by `failResult`. -/
structure SimResult where
  success : Bool
  errorMsg : Option String
  initialAmount : ℚ
  finalAmount : ℚ
  profit : ℚ
  profitUSD : ℚ
  netProfit : ℚ
  isProfitable : Bool
  buyOutputAmount : ℚ
  buyGasUsed : ℚ
  sellOutputAmount : ℚ
  sellGasUsed : ℚ
  totalGasCost : ℚ
  timestamp : Nat
  deriving Repr, DecidableEq

/-- The failure result returned from the `catch` block of
`simulateSimpleArbitrage` (numeric fields absent in the source are zeroed). -/
def failResult (msg : String) (now : Nat) : SimResult :=
  { success := false, errorMsg := some msg
    initialAmount := 0, finalAmount := 0, profit := 0, profitUSD := 0
    netProfit := 0, isProfitable := false
    buyOutputAmount := 0, buyGasUsed := 0, sellOutputAmount := 0
    sellGasUsed := 0, totalGasCost := 0, timestamp := now }

/-- An entry of `TradeSimulator.simulationCache`. -/
structure CacheEntry where
  result : SimResult
  timestamp : Nat
  deriving Repr, DecidableEq

/-- The `simulationCache` map. -/
def SimCache := String → Option CacheEntry

/-- `TradeSimulator.getCacheKey`. -/
def getCacheKey (type oppId : String) (tradeAmount : ℚ) : String :=
  type ++ ":" ++ oppId ++ ":" ++ toString tradeAmount

/-- `TradeSimulator.cacheTimeout` (30 seconds). -/
def cacheTimeout : Nat := 30000

/-- `TradeSimulator.getCachedResult` (hit/miss counters omitted). -/
def getCachedResult (cache : SimCache) (now : Nat) (key : String) :
    Option SimResult :=
  match cache key with
  | some e => if now - e.timestamp < cacheTimeout then some e.result else none
  | none => none

/-- `TradeSimulator.setCachedResult`. -/
def setCachedResult (cache : SimCache) (now : Nat) (key : String)
    (result : SimResult) : SimCache :=
  fun k => if k = key then some { result := result, timestamp := now } else cache k

/-- The fields of a simple opportunity consumed by the simulator. -/
structure SimpleOppInput where
  id : String
  tokenA : String
  tokenB : String
  buyDex : String
  sellDex : String
  deriving Repr, DecidableEq

/-- `TradeSimulator.simulateSimpleArbitrage`: cache lookup, buy leg, sell
leg (the buy output feeding the sell input), gas costing, result assembly,
cache store.  Returns the result and the updated cache; `now` stands for
`Date.now()`. -/
def simulateSimpleArbitrage (env : SimEnv) (cache : SimCache) (now : Nat)
    (opp : SimpleOppInput) (tradeAmount : ℚ) : SimResult × SimCache :=
  let key := getCacheKey "simple" opp.id tradeAmount
  match getCachedResult cache now key with
  | some r => (r, cache)
  | none =>
    match supportedTokenDecimals opp.tokenA, supportedTokenDecimals opp.tokenB with
    | some decimalsA, some _ =>
      let amountIn := tradeAmount * 10 ^ decimalsA
      match env.quote opp.buyDex opp.tokenA opp.tokenB amountIn with
      | none => (failResult "Buy simulation failed" now, cache)
      | some (buyOut, buyGas) =>
        match env.quote opp.sellDex opp.tokenB opp.tokenA buyOut with
        | none => (failResult "Sell simulation failed" now, cache)
        | some (sellOut, sellGas) =>
          let finalAmount := sellOut
          let profit := finalAmount - amountIn
          let profitUSD := profit / 10 ^ decimalsA
          let buyGasCost := estimateGasCost env buyGas
          let sellGasCost := estimateGasCost env sellGas
          let totalGasCost := buyGasCost + sellGasCost
          let netProfit := profitUSD - totalGasCost
          let result : SimResult :=
            { success := true, errorMsg := none
              initialAmount := amountIn, finalAmount := finalAmount
              profit := profit, profitUSD := profitUSD
              netProfit := netProfit
              isProfitable := decide (0 < netProfit)
              buyOutputAmount := buyOut, buyGasUsed := buyGas
              sellOutputAmount := sellOut, sellGasUsed := sellGas
              totalGasCost := totalGasCost, timestamp := now }
          (result, setCachedResult cache now key result)
    | _, _ => (failResult "Token information not found" now, cache)

/-- One leg of a triangular opportunity's `trades` list. -/
structure TriLeg where
  dex : String
  token : String
  toToken : String
  deriving Repr, DecidableEq

/-- The fields of a triangular opportunity consumed by the simulator. -/
structure TriangularOppInput where
  id : String
  path0 : String
  trades : List TriLeg
  deriving Repr, DecidableEq

/-- The leg loop of `simulateTriangularArbitrage`: thread the running
amount through each leg's quote, accumulating gas cost; `none` models the
thrown error when a leg's pool or quote fails. -/
def runTriLegs (env : SimEnv) : List TriLeg → ℚ → ℚ → Option (ℚ × ℚ)
  | [], currentAmount, totalGasCost => some (currentAmount, totalGasCost)
  | leg :: rest, currentAmount, totalGasCost =>
    match env.quote leg.dex leg.token leg.toToken currentAmount with
    | none => none
    | some (outAmount, gasUsed) =>
      runTriLegs env rest outAmount (totalGasCost + estimateGasCost env gasUsed)

/-- `TradeSimulator.simulateTriangularArbitrage` (per-leg swap records
omitted from the result). -/
def simulateTriangularArbitrage (env : SimEnv) (cache : SimCache) (now : Nat)
    (opp : TriangularOppInput) (tradeAmount : ℚ) : SimResult × SimCache :=
  let key := getCacheKey "triangular" opp.id tradeAmount
  match getCachedResult cache now key with
  | some r => (r, cache)
  | none =>
    match supportedTokenDecimals opp.path0 with
    | some decimals0 =>
      let initialAmount := tradeAmount * 10 ^ decimals0
      match runTriLegs env opp.trades initialAmount 0 with
      | none => (failResult "Swap simulation failed" now, cache)
      | some (finalAmount, totalGasCost) =>
        let profit := finalAmount - initialAmount
        let profitUSD := profit / 10 ^ decimals0
        let netProfit := profitUSD - totalGasCost
        let result : SimResult :=
          { success := true, errorMsg := none
            initialAmount := initialAmount, finalAmount := finalAmount
            profit := profit, profitUSD := profitUSD
            netProfit := netProfit
            isProfitable := decide (0 < netProfit)
            buyOutputAmount := 0, buyGasUsed := 0, sellOutputAmount := 0
            sellGasUsed := 0
            totalGasCost := totalGasCost, timestamp := now }
        (result, setCachedResult cache now key result)
    | none => (failResult "Token information not found" now, cache)

/-- An opportunity as dispatched on by `simulateWithSlippage`
(`opportunity.type === 'simple'` or triangular), with the token whose
decimals the slippage recalculation uses
(`opportunity.tokenA || opportunity.path[0]`). -/
inductive OppInput where
  | simple (opp : SimpleOppInput)
  | triangular (opp : TriangularOppInput)
  deriving DecidableEq

/-- The base-simulation dispatch at the top of `simulateWithSlippage`. -/
def simulateBase (env : SimEnv) (cache : SimCache) (now : Nat)
    (opp : OppInput) (tradeAmount : ℚ) : SimResult × SimCache :=
  match opp with
  | .simple o => simulateSimpleArbitrage env cache now o tradeAmount
  | .triangular o => simulateTriangularArbitrage env cache now o tradeAmount

/-- The token whose `SUPPORTED_TOKENS` decimals `simulateWithSlippage`
uses: `opportunity.tokenA || opportunity.path[0]`. -/
def slippageToken : OppInput → String
  | .simple o => o.tokenA
  | .triangular o => o.path0

/-- The object returned by `simulateWithSlippage` on a successful base run:
the spread base result plus the slippage-adjusted fields. -/
structure SlippageResult where
  base : SimResult
  slippageAdjustedOutput : ℚ
  slippageAdjustedProfit : ℚ
  netProfitWithSlippage : ℚ
  isProfitableWithSlippage : Bool
  slippagePercent : ℚ
  deriving Repr, DecidableEq

/-- `TradeSimulator.simulateWithSlippage`: run the base simulation, then
apply the `(100 - slippagePercent)/100` haircut to the final output amount
and recompute the profit figures.  A failed base run is returned as-is
(`Sum.inl`), mirroring the early `return result`. -/
def simulateWithSlippage (env : SimEnv) (cache : SimCache) (now : Nat)
    (opp : OppInput) (tradeAmount slippagePercent : ℚ) :
    (SimResult ⊕ SlippageResult) × SimCache :=
  let (result, cache1) := simulateBase env cache now opp tradeAmount
  if result.success = false then (Sum.inl result, cache1)
  else
    match supportedTokenDecimals (slippageToken opp) with
    | none => (Sum.inl (failResult "Token information not found" now), cache1)
    | some decimals =>
      let slippageMultiplier := (100 - slippagePercent) / 100
      let slippageAdjustedOutput := result.finalAmount * slippageMultiplier
      let slippageAdjustedProfit := slippageAdjustedOutput - result.initialAmount
      let slippageAdjustedProfitUSD := slippageAdjustedProfit / 10 ^ decimals
      let netProfitWithSlippage := slippageAdjustedProfitUSD - result.totalGasCost
      (Sum.inr
        { base := result
          slippageAdjustedOutput := slippageAdjustedOutput
          slippageAdjustedProfit := slippageAdjustedProfitUSD
          netProfitWithSlippage := netProfitWithSlippage
          isProfitableWithSlippage := decide (0 < netProfitWithSlippage)
          slippagePercent := slippagePercent }, cache1)

end TradeSimulator

/-! ## Theorems: arbitrage detector (C1, C2, C3) -/

namespace ArbitrageDetector

open PriceFetcher

/-- The paired best-buy/best-sell fold computes the best-buy fold in its
first component. -/
lemma foldBest_fst (l : List (String × PriceData)) :
    ∀ p : Option PriceData × Option PriceData,
      (l.foldl (fun acc e => (updateBestBuy acc.1 e, updateBestSell acc.2 e)) p).1
        = l.foldl updateBestBuy p.1 := by
  induction l with
  | nil => intro p; rfl
  | cons e t ih => intro p; rw [List.foldl_cons, List.foldl_cons]; exact ih _

/-- The paired best-buy/best-sell fold computes the best-sell fold in its
second component. -/
lemma foldBest_snd (l : List (String × PriceData)) :
    ∀ p : Option PriceData × Option PriceData,
      (l.foldl (fun acc e => (updateBestBuy acc.1 e, updateBestSell acc.2 e)) p).2
        = l.foldl updateBestSell p.2 := by
  induction l with
  | nil => intro p; rfl
  | cons e t ih => intro p; rw [List.foldl_cons, List.foldl_cons]; exact ih _

/-- One best-buy step from a present accumulator stays present and never
increases the tracked price. -/
lemma updateBestBuy_some_of_some (b0 : PriceData) (e : String × PriceData) :
    ∃ b, updateBestBuy (some b0) e = some b ∧ b.price ≤ b0.price := by
  unfold updateBestBuy
  dsimp only
  split_ifs with h0 h1
  · exact ⟨b0, rfl, le_refl _⟩
  · exact ⟨e.2, rfl, le_of_lt h1⟩
  · exact ⟨b0, rfl, le_refl _⟩

/-- The best-buy fold from a present accumulator stays present and never
increases the tracked price. -/
lemma buy_fold_some_mono (l : List (String × PriceData)) :
    ∀ b0 : PriceData, ∃ b, l.foldl updateBestBuy (some b0) = some b ∧ b.price ≤ b0.price := by
  induction l with
  | nil => intro b0; exact ⟨b0, rfl, le_refl _⟩
  | cons e t ih =>
    intro b0
    obtain ⟨b1, h1, hle1⟩ := updateBestBuy_some_of_some b0 e
    obtain ⟨b, hb, hle⟩ := ih b1
    exact ⟨b, by rw [List.foldl_cons, h1, hb], hle.trans hle1⟩

/-- After one best-buy step over an observation with nonzero price, the
tracked price is at most that observation's price. -/
lemma updateBestBuy_le (acc : Option PriceData) (e : String × PriceData)
    (b1 : PriceData) (hne : e.2.price ≠ 0) (h : updateBestBuy acc e = some b1) :
    b1.price ≤ e.2.price := by
  unfold updateBestBuy at h
  rw [if_neg hne] at h
  cases acc with
  | none =>
    dsimp only at h
    rw [Option.some.injEq] at h
    exact h ▸ le_refl _
  | some b0 =>
    dsimp only at h
    split_ifs at h with h1
    · rw [Option.some.injEq] at h
      exact h ▸ le_refl _
    · rw [Option.some.injEq] at h
      exact h ▸ le_of_not_lt h1

/-- The best-buy fold result is a lower bound on every nonzero price in the
list. -/
lemma buy_fold_le (l : List (String × PriceData)) :
    ∀ (acc : Option PriceData) (e : String × PriceData), e ∈ l → e.2.price ≠ 0 →
      ∀ b, l.foldl updateBestBuy acc = some b → b.price ≤ e.2.price := by
  induction l with
  | nil => intro _ e he; cases he
  | cons hd t ih =>
    intro acc e he hne b hb
    rw [List.foldl_cons] at hb
    rcases List.mem_cons.mp he with heq | hmem
    · subst heq
      cases hacc1 : updateBestBuy acc e with
      | none =>
        exfalso
        unfold updateBestBuy at hacc1
        rw [if_neg hne] at hacc1
        cases acc with
        | none => dsimp only at hacc1; simp at hacc1
        | some b0 => dsimp only at hacc1; split_ifs at hacc1
      | some b1 =>
        have hb1 : b1.price ≤ e.2.price := updateBestBuy_le acc e b1 hne hacc1
        rw [hacc1] at hb
        obtain ⟨b2, hb2, hle2⟩ := buy_fold_some_mono t b1
        rw [hb] at hb2
        rw [Option.some.injEq] at hb2
        exact (hb2 ▸ hle2).trans hb1
    · exact ih (updateBestBuy acc hd) e hmem hne b hb

/-- The best-buy fold result is either the starting accumulator or one of
the scanned observations. -/
lemma buy_fold_mem (l : List (String × PriceData)) :
    ∀ (acc : Option PriceData) (b : PriceData), l.foldl updateBestBuy acc = some b →
      acc = some b ∨ ∃ e ∈ l, e.2 = b := by
  induction l with
  | nil => intro acc b h; exact Or.inl h
  | cons hd t ih =>
    intro acc b h
    rw [List.foldl_cons] at h
    rcases ih _ b h with hacc1 | ⟨e, he, hee⟩
    · unfold updateBestBuy at hacc1
      split_ifs at hacc1 with h0
      · exact Or.inl hacc1
      · cases acc with
        | none =>
          dsimp only at hacc1
          rw [Option.some.injEq] at hacc1
          exact Or.inr ⟨hd, List.mem_cons_self hd t, hacc1⟩
        | some b0 =>
          dsimp only at hacc1
          split_ifs at hacc1 with h1
          · rw [Option.some.injEq] at hacc1
            exact Or.inr ⟨hd, List.mem_cons_self hd t, hacc1⟩
          · exact Or.inl hacc1
    · exact Or.inr ⟨e, List.mem_cons_of_mem hd he, hee⟩

/-- One best-sell step from a present accumulator stays present and never
decreases the tracked price. -/
lemma updateBestSell_some_of_some (b0 : PriceData) (e : String × PriceData) :
    ∃ b, updateBestSell (some b0) e = some b ∧ b0.price ≤ b.price := by
  unfold updateBestSell
  dsimp only
  split_ifs with h0 h1
  · exact ⟨b0, rfl, le_refl _⟩
  · exact ⟨e.2, rfl, le_of_lt h1⟩
  · exact ⟨b0, rfl, le_refl _⟩

/-- The best-sell fold from a present accumulator stays present and never
decreases the tracked price. -/
lemma sell_fold_some_mono (l : List (String × PriceData)) :
    ∀ b0 : PriceData, ∃ b, l.foldl updateBestSell (some b0) = some b ∧ b0.price ≤ b.price := by
  induction l with
  | nil => intro b0; exact ⟨b0, rfl, le_refl _⟩
  | cons e t ih =>
    intro b0
    obtain ⟨b1, h1, hle1⟩ := updateBestSell_some_of_some b0 e
    obtain ⟨b, hb, hle⟩ := ih b1
    exact ⟨b, by rw [List.foldl_cons, h1, hb], hle1.trans hle⟩

/-- After one best-sell step over an observation with nonzero price, the
tracked price is at least that observation's price. -/
lemma updateBestSell_ge (acc : Option PriceData) (e : String × PriceData)
    (b1 : PriceData) (hne : e.2.price ≠ 0) (h : updateBestSell acc e = some b1) :
    e.2.price ≤ b1.price := by
  unfold updateBestSell at h
  rw [if_neg hne] at h
  cases acc with
  | none =>
    dsimp only at h
    rw [Option.some.injEq] at h
    exact h ▸ le_refl _
  | some b0 =>
    dsimp only at h
    split_ifs at h with h1
    · rw [Option.some.injEq] at h
      exact h ▸ le_refl _
    · rw [Option.some.injEq] at h
      exact h ▸ le_of_not_lt h1

/-- The best-sell fold result is an upper bound on every nonzero price in
the list. -/
lemma sell_fold_ge (l : List (String × PriceData)) :
    ∀ (acc : Option PriceData) (e : String × PriceData), e ∈ l → e.2.price ≠ 0 →
      ∀ b, l.foldl updateBestSell acc = some b → e.2.price ≤ b.price := by
  induction l with
  | nil => intro _ e he; cases he
  | cons hd t ih =>
    intro acc e he hne b hb
    rw [List.foldl_cons] at hb
    rcases List.mem_cons.mp he with heq | hmem
    · subst heq
      cases hacc1 : updateBestSell acc e with
      | none =>
        exfalso
        unfold updateBestSell at hacc1
        rw [if_neg hne] at hacc1
        cases acc with
        | none => dsimp only at hacc1; simp at hacc1
        | some b0 => dsimp only at hacc1; split_ifs at hacc1
      | some b1 =>
        have hb1 : e.2.price ≤ b1.price := updateBestSell_ge acc e b1 hne hacc1
        rw [hacc1] at hb
        obtain ⟨b2, hb2, hle2⟩ := sell_fold_some_mono t b1
        rw [hb] at hb2
        rw [Option.some.injEq] at hb2
        exact hb1.trans (hb2 ▸ hle2)
    · exact ih (updateBestSell acc hd) e hmem hne b hb

/-- The best-sell fold result is either the starting accumulator or one of
the scanned observations. -/
lemma sell_fold_mem (l : List (String × PriceData)) :
    ∀ (acc : Option PriceData) (b : PriceData), l.foldl updateBestSell acc = some b →
      acc = some b ∨ ∃ e ∈ l, e.2 = b := by
  induction l with
  | nil => intro acc b h; exact Or.inl h
  | cons hd t ih =>
    intro acc b h
    rw [List.foldl_cons] at h
    rcases ih _ b h with hacc1 | ⟨e, he, hee⟩
    · unfold updateBestSell at hacc1
      split_ifs at hacc1 with h0
      · exact Or.inl hacc1
      · cases acc with
        | none =>
          dsimp only at hacc1
          rw [Option.some.injEq] at hacc1
          exact Or.inr ⟨hd, List.mem_cons_self hd t, hacc1⟩
        | some b0 =>
          dsimp only at hacc1
          split_ifs at hacc1 with h1
          · rw [Option.some.injEq] at hacc1
            exact Or.inr ⟨hd, List.mem_cons_self hd t, hacc1⟩
          · exact Or.inl hacc1
    · exact Or.inr ⟨e, List.mem_cons_of_mem hd he, hee⟩

/-- The first component of `findBestQuotes` is the plain best-buy fold. -/
lemma findBestQuotes_buy (entries : List (String × PriceData)) (bb bs : PriceData)
    (h : findBestQuotes entries = (some bb, some bs)) :
    entries.foldl updateBestBuy none = some bb := by
  have h1 := congrArg Prod.fst h
  rw [findBestQuotes] at h1
  rw [foldBest_fst] at h1
  exact h1

/-- The second component of `findBestQuotes` is the plain best-sell fold. -/
lemma findBestQuotes_sell (entries : List (String × PriceData)) (bb bs : PriceData)
    (h : findBestQuotes entries = (some bb, some bs)) :
    entries.foldl updateBestSell none = some bs := by
  have h1 := congrArg Prod.snd h
  rw [findBestQuotes] at h1
  rw [foldBest_snd] at h1
  exact h1

/-- C1: every candidate emitted by `detectSimpleArbitrage` has passed both
gates — its spread percent `(sell − buy)/buy × 100` is at least 0.5 and its
expected net profit (gross profit minus swap fees minus gas cost) is at
least the configured threshold; conversely, when the best quotes give a
spread below 0.5% or a net profit below the threshold, the scan returns
`none`. -/
theorem C1_spread_and_profit_gates (th g : ℚ) (entries : List (String × PriceData))
    (a b : String) :
    (∀ r, detectSimpleArbitrage th g entries a b = some r →
        (1/2 : ℚ) ≤ r.priceDifferencePercent
          ∧ th ≤ r.expectedProfit
          ∧ r.priceDifferencePercent = (r.sellPrice - r.buyPrice) / r.buyPrice * 100
          ∧ r.expectedProfit
              = r.tradeAmount * (r.priceDifferencePercent / 100) - r.swapFees - r.gasCost
          ∧ r.swapFees = 6 ∧ r.gasCost = g ∧ r.tradeAmount = 1000)
      ∧ (∀ bb bs, findBestQuotes entries = (some bb, some bs) → bb.dex ≠ bs.dex →
          (bs.price - bb.price) / bb.price * 100 < 1/2 →
          detectSimpleArbitrage th g entries a b = none)
      ∧ (∀ bb bs, findBestQuotes entries = (some bb, some bs) → bb.dex ≠ bs.dex →
          1000 * ((bs.price - bb.price) / bb.price * 100 / 100)
              - (calculateSwapFees 1000 + g) < th →
          detectSimpleArbitrage th g entries a b = none) := by
  refine ⟨?_, ?_, ?_⟩
  · intro r h
    simp only [detectSimpleArbitrage] at h
    split at h
    · exact absurd h (by simp)
    · cases hfq : findBestQuotes entries with
      | mk o1 o2 =>
        rw [hfq] at h
        cases o1 with
        | none => exact absurd h (by simp)
        | some bb =>
          cases o2 with
          | none => exact absurd h (by simp)
          | some bs =>
            dsimp only at h
            split_ifs at h with hdex hsp hmeet
            rw [Option.some.injEq] at h
            subst h
            refine ⟨not_lt.mp hsp, ?_, rfl, ?_, ?_, rfl, rfl⟩
            · simpa [HelperUtils.meetsProfitThreshold] using hmeet
            · show (1000 : ℚ) * ((bs.price - bb.price) / bb.price * 100 / 100)
                  - (calculateSwapFees 1000 + g)
                = 1000 * ((bs.price - bb.price) / bb.price * 100 / 100)
                  - calculateSwapFees 1000 - g
              ring
            · show calculateSwapFees 1000 = 6
              norm_num [calculateSwapFees]
  · intro bb bs hfq hdex hsp
    simp only [detectSimpleArbitrage]
    split
    · rfl
    · rw [hfq]
      dsimp only
      rw [if_neg hdex, if_pos hsp]
  · intro bb bs hfq hdex hlow
    simp only [detectSimpleArbitrage]
    split
    · rfl
    · rw [hfq]
      dsimp only
      rw [if_neg hdex]
      split
      · rfl
      · split
        · rename_i hmeet
          rw [HelperUtils.meetsProfitThreshold, decide_eq_true_eq] at hmeet
          exact absurd hmeet (not_le.mpr hlow)
        · rfl

/-- A concrete cheap observation used to witness `C1_spread_and_profit_gates`. -/
def C1pdLow : PriceData :=
  { dex := "UNISWAP_V3", tokenA := "WETH", tokenB := "USDT", feeTier := 3000
    price := 100, timestamp := 0 }

/-- A concrete expensive observation used to witness
`C1_spread_and_profit_gates`. -/
def C1pdHigh : PriceData :=
  { dex := "SUSHISWAP_V3", tokenA := "WETH", tokenB := "USDT", feeTier := 3000
    price := 102, timestamp := 0 }

/-- The concrete entry list used to witness `C1_spread_and_profit_gates`. -/
def C1entries : List (String × PriceData) :=
  [("UNISWAP_V3", C1pdLow), ("SUSHISWAP_V3", C1pdHigh)]

/-- The candidate emitted by `detectSimpleArbitrage 0 1 C1entries`. -/
def C1rec : SimpleOpportunity :=
  { tokenA := "WETH", tokenB := "USDT", buyDex := "UNISWAP_V3", sellDex := "SUSHISWAP_V3"
    buyPrice := 100, sellPrice := 102, priceDifference := 2, priceDifferencePercent := 2
    tradeAmount := 1000, expectedOutput := 1020, expectedProfit := 13
    swapFees := 6, gasCost := 1, totalFees := 7 }

/-- C1 witness: `C1_spread_and_profit_gates` applied to a concrete emitted
candidate (prices 100 and 102, gas $1, threshold $0). -/
theorem C1_witness :
    (1/2 : ℚ) ≤ C1rec.priceDifferencePercent
      ∧ (0 : ℚ) ≤ C1rec.expectedProfit
      ∧ C1rec.priceDifferencePercent
          = (C1rec.sellPrice - C1rec.buyPrice) / C1rec.buyPrice * 100
      ∧ C1rec.expectedProfit
          = C1rec.tradeAmount * (C1rec.priceDifferencePercent / 100)
            - C1rec.swapFees - C1rec.gasCost
      ∧ C1rec.swapFees = 6 ∧ C1rec.gasCost = 1 ∧ C1rec.tradeAmount = 1000 :=
  (C1_spread_and_profit_gates 0 1 C1entries "WETH" "USDT").1 C1rec (by
    have hne : ("UNISWAP_V3" : String) ≠ "SUSHISWAP_V3" := by decide
    norm_num [detectSimpleArbitrage, findBestQuotes, updateBestBuy, updateBestSell,
      C1entries, C1pdLow, C1pdHigh, HelperUtils.meetsProfitThreshold, calculateSwapFees,
      C1rec, hne])

/-- C2: every candidate emitted by `detectSimpleArbitrage` buys at one of
the scanned observations whose price is minimal among the nonzero prices,
sells at one whose price is maximal, and has distinct buy and sell venues;
whenever the best buy and best sell resolve to the same venue the scan
returns `none`. -/
theorem C2_buy_sell_selection (th g : ℚ) (entries : List (String × PriceData))
    (a b : String) :
    (∀ r, detectSimpleArbitrage th g entries a b = some r →
        r.buyDex ≠ r.sellDex
          ∧ (∃ e ∈ entries, e.2.dex = r.buyDex ∧ e.2.price = r.buyPrice)
          ∧ (∃ e ∈ entries, e.2.dex = r.sellDex ∧ e.2.price = r.sellPrice)
          ∧ ∀ e ∈ entries, e.2.price ≠ 0 →
              r.buyPrice ≤ e.2.price ∧ e.2.price ≤ r.sellPrice)
      ∧ (∀ bb bs, findBestQuotes entries = (some bb, some bs) → bb.dex = bs.dex →
          detectSimpleArbitrage th g entries a b = none) := by
  constructor
  · intro r h
    simp only [detectSimpleArbitrage] at h
    split at h
    · exact absurd h (by simp)
    · cases hfq : findBestQuotes entries with
      | mk o1 o2 =>
        rw [hfq] at h
        cases o1 with
        | none => exact absurd h (by simp)
        | some bb =>
          cases o2 with
          | none => exact absurd h (by simp)
          | some bs =>
            dsimp only at h
            split_ifs at h with hdex hsp hmeet
            rw [Option.some.injEq] at h
            subst h
            refine ⟨hdex, ?_, ?_, ?_⟩
            · have hbuy := findBestQuotes_buy entries bb bs hfq
              rcases buy_fold_mem entries none bb hbuy with hn | ⟨e, he, hee⟩
              · exact absurd hn (by simp)
              · exact ⟨e, he, by rw [hee], by rw [hee]⟩
            · have hsell := findBestQuotes_sell entries bb bs hfq
              rcases sell_fold_mem entries none bs hsell with hn | ⟨e, he, hee⟩
              · exact absurd hn (by simp)
              · exact ⟨e, he, by rw [hee], by rw [hee]⟩
            · intro e he hne
              exact ⟨buy_fold_le entries none e he hne bb
                  (findBestQuotes_buy entries bb bs hfq),
                sell_fold_ge entries none e he hne bs
                  (findBestQuotes_sell entries bb bs hfq)⟩
  · intro bb bs hfq hdex
    simp only [detectSimpleArbitrage]
    split
    · rfl
    · rw [hfq]
      dsimp only
      rw [if_pos hdex]

/-- A concrete cheap observation used to witness `C2_buy_sell_selection`. -/
def C2pdLow : PriceData :=
  { dex := "UNISWAP_V3", tokenA := "WETH", tokenB := "USDT", feeTier := 3000
    price := 200, timestamp := 0 }

/-- A concrete expensive observation used to witness `C2_buy_sell_selection`. -/
def C2pdHigh : PriceData :=
  { dex := "SUSHISWAP_V3", tokenA := "WETH", tokenB := "USDT", feeTier := 3000
    price := 210, timestamp := 0 }

/-- The concrete entry list used to witness `C2_buy_sell_selection`. -/
def C2entries : List (String × PriceData) :=
  [("UNISWAP_V3", C2pdLow), ("SUSHISWAP_V3", C2pdHigh)]

/-- The candidate emitted by `detectSimpleArbitrage 0 0 C2entries`. -/
def C2rec : SimpleOpportunity :=
  { tokenA := "WETH", tokenB := "USDT", buyDex := "UNISWAP_V3", sellDex := "SUSHISWAP_V3"
    buyPrice := 200, sellPrice := 210, priceDifference := 10, priceDifferencePercent := 5
    tradeAmount := 1000, expectedOutput := 1050, expectedProfit := 44
    swapFees := 6, gasCost := 0, totalFees := 6 }

/-- C2 witness: `C2_buy_sell_selection` applied to a concrete emitted
candidate — its venues differ and its buy price bounds the cheap
observation's price from below while the sell price bounds it from above. -/
theorem C2_witness :
    C2rec.buyDex ≠ C2rec.sellDex
      ∧ C2rec.buyPrice ≤ C2pdLow.price ∧ C2pdLow.price ≤ C2rec.sellPrice := by
  have h := (C2_buy_sell_selection 0 0 C2entries "WETH" "USDT").1 C2rec (by
    have hne : ("UNISWAP_V3" : String) ≠ "SUSHISWAP_V3" := by decide
    norm_num [detectSimpleArbitrage, findBestQuotes, updateBestBuy, updateBestSell,
      C2entries, C2pdLow, C2pdHigh, HelperUtils.meetsProfitThreshold, calculateSwapFees,
      C2rec, hne])
  have hb := h.2.2.2 ("UNISWAP_V3", C2pdLow) (by simp [C2entries])
    (by norm_num [C2pdLow])
  exact ⟨h.1, hb.1, hb.2⟩

/-- C3: `detectTriangularPath` compounds the three leg prices into
`effectiveRate = p1 × p2 × p3` exactly, sets
`profitRate = effectiveRate − 1`, and returns `none` whenever the profit
rate is below 0.5% (0.005); every emitted candidate carries exactly these
values. -/
theorem C3_triangular_rate_and_gate (th g p1 p2 p3 : ℚ) (a b c : String) :
    (∀ r, detectTriangularPath th g (some p1) (some p2) (some p3) a b c = some r →
        r.effectiveRate = p1 * p2 * p3 ∧ r.profitRate = r.effectiveRate - 1
          ∧ ¬ r.profitRate < 5/1000)
      ∧ (p1 * p2 * p3 - 1 < 5/1000 →
          detectTriangularPath th g (some p1) (some p2) (some p3) a b c = none) := by
  constructor
  · intro r h
    simp only [detectTriangularPath] at h
    split at h
    · exact absurd h (by simp)
    · rename_i hlt
      split at h
      · rw [Option.some.injEq] at h
        subst h
        exact ⟨rfl, rfl, hlt⟩
      · exact absurd h (by simp)
  · intro hlt
    simp [detectTriangularPath, if_pos hlt]

/-- The candidate emitted by `detectTriangularPath 0 0` on leg prices
1/2, 2, 102/100. -/
def C3rec : TriangularOpportunity :=
  { path := ["USDC", "WETH", "WBTC"], effectiveRate := 102/100, profitRate := 2/100
    tradeAmount := 1000, expectedProfit := 20, netProfit := 11
    swapFees := 9, gasCost := 0, totalFees := 9 }

/-- C3 witness: `C3_triangular_rate_and_gate` applied to a concrete
emitted triangular candidate with leg prices 1/2, 2 and 102/100. -/
theorem C3_witness :
    C3rec.effectiveRate = (1/2 : ℚ) * 2 * (102/100)
      ∧ C3rec.profitRate = C3rec.effectiveRate - 1
      ∧ ¬ C3rec.profitRate < 5/1000 :=
  (C3_triangular_rate_and_gate 0 0 (1/2) 2 (102/100) "USDC" "WETH" "WBTC").1 C3rec (by
    norm_num [detectTriangularPath, calculateTriangularSwapFees,
      HelperUtils.meetsProfitThreshold, C3rec])

end ArbitrageDetector

/-! ## Theorems: trade simulator (C8, C9) -/

namespace TradeSimulator

/-- C8 amended: when a simulate call is a cache miss that computes a
SUCCESSFUL result, any second call for the same (type, opportunityId,
notional) key within the cache TTL is served from the simulation cache:
it returns the bit-identical result and leaves the cache unchanged,
whatever the quoting environment of the second call. -/
theorem C8_amended (env1 env2 : SimEnv) (cache : SimCache) (now1 now2 : Nat)
    (opp : SimpleOppInput) (amt : ℚ) (r : SimResult) (cache1 : SimCache)
    (hmiss : getCachedResult cache now1 (getCacheKey "simple" opp.id amt) = none)
    (h1 : simulateSimpleArbitrage env1 cache now1 opp amt = (r, cache1))
    (hs : r.success = true)
    (httl : now2 - now1 < cacheTimeout) :
    simulateSimpleArbitrage env2 cache1 now2 opp amt = (r, cache1) := by
  simp only [simulateSimpleArbitrage] at h1
  rw [hmiss] at h1
  cases hdA : supportedTokenDecimals opp.tokenA with
  | none =>
    rw [hdA] at h1
    cases hdB : supportedTokenDecimals opp.tokenB <;> rw [hdB] at h1 <;>
      · rw [Prod.mk.injEq] at h1
        rw [← h1.1] at hs
        simp [failResult] at hs
  | some dA =>
    rw [hdA] at h1
    cases hdB : supportedTokenDecimals opp.tokenB with
    | none =>
      rw [hdB] at h1
      rw [Prod.mk.injEq] at h1
      rw [← h1.1] at hs
      simp [failResult] at hs
    | some dB =>
      rw [hdB] at h1
      dsimp only at h1
      cases hq1 : env1.quote opp.buyDex opp.tokenA opp.tokenB (amt * 10 ^ dA) with
      | none =>
        rw [hq1] at h1
        rw [Prod.mk.injEq] at h1
        rw [← h1.1] at hs
        simp [failResult] at hs
      | some q1 =>
        rw [hq1] at h1
        cases q1 with
        | mk buyOut buyGas =>
          dsimp only at h1
          cases hq2 : env1.quote opp.sellDex opp.tokenB opp.tokenA buyOut with
          | none =>
            rw [hq2] at h1
            rw [Prod.mk.injEq] at h1
            rw [← h1.1] at hs
            simp [failResult] at hs
          | some q2 =>
            rw [hq2] at h1
            cases q2 with
            | mk sellOut sellGas =>
              dsimp only at h1
              rw [Prod.mk.injEq] at h1
              obtain ⟨hr, hc⟩ := h1
              subst hc
              simp only [simulateSimpleArbitrage, getCachedResult, setCachedResult,
                if_pos rfl, httl, if_true]
              rw [← hr]

/-- The quoting environment of the C8 counterexample: every quote fails. -/
def C8env : SimEnv := { quote := fun _ _ _ _ => none, gasPrice := 0 }

/-- The opportunity of the C8 counterexample. -/
def C8opp : SimpleOppInput :=
  { id := "opp1", tokenA := "WETH", tokenB := "USDT"
    buyDex := "UNISWAP_V3", sellDex := "SUSHISWAP_V3" }

/-- The empty simulation cache of the C8 counterexample. -/
def C8cache : SimCache := fun _ => none

/-- C8 counterexample: when the first simulate call FAILS (here: every
quote fails), nothing is written to the cache, so a second call for the
same key 1 second later is re-derived rather than served from cache, and
the two returned results are not bit-identical — their `timestamp` fields
differ (0 versus 1000). -/
theorem C8_counterexample :
    (simulateSimpleArbitrage C8env C8cache 0 C8opp 1000).2 = C8cache
      ∧ (simulateSimpleArbitrage C8env C8cache 0 C8opp 1000).1.timestamp = 0
      ∧ (simulateSimpleArbitrage C8env
            ((simulateSimpleArbitrage C8env C8cache 0 C8opp 1000).2) 1000 C8opp 1000).1.timestamp
          = 1000
      ∧ (simulateSimpleArbitrage C8env C8cache 0 C8opp 1000).1
          ≠ (simulateSimpleArbitrage C8env
              ((simulateSimpleArbitrage C8env C8cache 0 C8opp 1000).2) 1000 C8opp 1000).1 := by
  refine ⟨rfl, rfl, rfl, ?_⟩
  intro h
  have h2 := congrArg SimResult.timestamp h
  have h3 : (0 : Nat) = 1000 := h2
  simp at h3

/-- The quoting environment of the C8 witness: quotes echo the input
amount with zero gas. -/
def C8wenv : SimEnv := { quote := fun _ _ _ x => some (x, 0), gasPrice := 0 }

/-- The opportunity of the C8 witness. -/
def C8wopp : SimpleOppInput :=
  { id := "w8", tokenA := "WETH", tokenB := "USDT"
    buyDex := "UNISWAP_V3", sellDex := "SUSHISWAP_V3" }

/-- The empty simulation cache of the C8 witness. -/
def C8wcache : SimCache := fun _ => none

/-- The successful result computed and cached by the first C8 witness call. -/
def C8wr : SimResult :=
  { success := true, errorMsg := none
    initialAmount := 10^18, finalAmount := 10^18, profit := 0, profitUSD := 0
    netProfit := 0, isProfitable := false
    buyOutputAmount := 10^18, buyGasUsed := 0, sellOutputAmount := 10^18
    sellGasUsed := 0, totalGasCost := 0, timestamp := 0 }

/-- C8 witness: `C8_amended` applied to a concrete successful first call
at time 0 and a second call at time 10 (within the 30s TTL). -/
theorem C8_witness :
    simulateSimpleArbitrage C8wenv
        ((simulateSimpleArbitrage C8wenv C8wcache 0 C8wopp 1).2) 10 C8wopp 1
      = (C8wr, (simulateSimpleArbitrage C8wenv C8wcache 0 C8wopp 1).2) :=
  C8_amended C8wenv C8wenv C8wcache 0 10 C8wopp 1 C8wr
    ((simulateSimpleArbitrage C8wenv C8wcache 0 C8wopp 1).2)
    (by norm_num [getCachedResult, C8wcache])
    (by
      have hfst : (simulateSimpleArbitrage C8wenv C8wcache 0 C8wopp 1).1 = C8wr := by
        norm_num [simulateSimpleArbitrage, getCachedResult, getCacheKey, setCachedResult,
          estimateGasCost, supportedTokenDecimals, C8wenv, C8wopp, C8wcache, C8wr]
      exact Prod.ext_iff.mpr ⟨hfst, rfl⟩)
    (by norm_num [C8wr])
    (by norm_num [cacheTimeout])

/-- C9: whenever `simulateWithSlippage` returns a slippage result, that
result spreads the base simulation's result unchanged (so both the
unhaircut and the haircut fields are exposed), its slippage-adjusted
output equals the base final output amount times `(100 − slippage)/100`
exactly, and it records the slippage percent; moreover a successful base
simulation on a supported token always yields such a slippage result
rather than an error. -/
theorem C9_slippage_haircut (env : SimEnv) (cache : SimCache) (now : Nat)
    (opp : OppInput) (amt s : ℚ) :
    (∀ sr cache2, simulateWithSlippage env cache now opp amt s = (Sum.inr sr, cache2) →
        sr.base = (simulateBase env cache now opp amt).1
          ∧ sr.base.success = true
          ∧ sr.slippageAdjustedOutput = sr.base.finalAmount * ((100 - s) / 100)
          ∧ sr.slippagePercent = s
          ∧ cache2 = (simulateBase env cache now opp amt).2)
      ∧ ((supportedTokenDecimals (slippageToken opp)).isSome = true →
          (simulateBase env cache now opp amt).1.success = true →
          (simulateWithSlippage env cache now opp amt s).1.isRight = true) := by
  constructor
  · intro sr cache2 h
    simp only [simulateWithSlippage] at h
    cases hbase : simulateBase env cache now opp amt with
    | mk result cache1 =>
      rw [hbase] at h
      dsimp only at h
      split_ifs at h with hfail
      · exact absurd (congrArg Prod.fst h) (by simp)
      · cases hdec : supportedTokenDecimals (slippageToken opp) with
        | none =>
          rw [hdec] at h
          exact absurd (congrArg Prod.fst h) (by simp)
        | some decs =>
          rw [hdec] at h
          dsimp only at h
          rw [Prod.mk.injEq] at h
          obtain ⟨hsr, hc2⟩ := h
          rw [Sum.inr.injEq] at hsr
          subst hsr
          subst hc2
          refine ⟨rfl, ?_, rfl, rfl, rfl⟩
          exact Bool.not_eq_false _ |>.mp hfail
  · intro hdecs hsucc
    simp only [simulateWithSlippage]
    cases hbase : simulateBase env cache now opp amt with
    | mk result cache1 =>
      rw [hbase] at hsucc
      dsimp only at hsucc ⊢
      rw [if_neg (by simp [hsucc])]
      obtain ⟨decs, hdec⟩ := Option.isSome_iff_exists.mp hdecs
      rw [hdec]
      rfl

/-- The quoting environment of the C9 witness: quotes echo the input
amount with zero gas. -/
def C9env : SimEnv := { quote := fun _ _ _ x => some (x, 0), gasPrice := 0 }

/-- The simple opportunity underlying the C9 witness. -/
def C9sopp : SimpleOppInput :=
  { id := "o9", tokenA := "WETH", tokenB := "USDT"
    buyDex := "UNISWAP_V3", sellDex := "SUSHISWAP_V3" }

/-- The C9 witness opportunity as dispatched by `simulateWithSlippage`. -/
def C9opp : OppInput := .simple C9sopp

/-- The empty simulation cache of the C9 witness. -/
def C9cache : SimCache := fun _ => none

/-- The successful base result computed by the C9 witness run. -/
def C9base : SimResult :=
  { success := true, errorMsg := none
    initialAmount := 10^18, finalAmount := 10^18, profit := 0, profitUSD := 0
    netProfit := 0, isProfitable := false
    buyOutputAmount := 10^18, buyGasUsed := 0, sellOutputAmount := 10^18
    sellGasUsed := 0, totalGasCost := 0, timestamp := 5 }

/-- The slippage result returned by the C9 witness run at 50% slippage. -/
def C9sr : SlippageResult :=
  { base := C9base, slippageAdjustedOutput := 5 * 10^17
    slippageAdjustedProfit := -(1/2), netProfitWithSlippage := -(1/2)
    isProfitableWithSlippage := false, slippagePercent := 50 }

/-- C9 witness: `C9_slippage_haircut` applied to a concrete successful
simulation at notional 1 and 50% slippage — the haircut output is half
the base final amount. -/
theorem C9_witness :
    C9sr.base = (simulateBase C9env C9cache 5 C9opp 1).1
      ∧ C9sr.base.success = true
      ∧ C9sr.slippageAdjustedOutput = C9sr.base.finalAmount * ((100 - 50) / 100)
      ∧ C9sr.slippagePercent = 50
      ∧ (simulateWithSlippage C9env C9cache 5 C9opp 1 50).2
          = (simulateBase C9env C9cache 5 C9opp 1).2 :=
  (C9_slippage_haircut C9env C9cache 5 C9opp 1 50).1 C9sr
    ((simulateWithSlippage C9env C9cache 5 C9opp 1 50).2)
    (by
      have hfst : (simulateWithSlippage C9env C9cache 5 C9opp 1 50).1 = Sum.inr C9sr := by
        norm_num [simulateWithSlippage, simulateBase, simulateSimpleArbitrage,
          getCachedResult, getCacheKey, setCachedResult, estimateGasCost,
          supportedTokenDecimals, slippageToken, C9env, C9sopp, C9opp, C9cache,
          C9base, C9sr]
      exact Prod.ext_iff.mpr ⟨hfst, rfl⟩)

end TradeSimulator

/-! ## Theorems: price fetcher venue scoping (C10) -/

namespace PriceFetcher

/-- The character list underlying a price key, reassociated to expose the
venue name as a prefix. -/
lemma key_data (d a b : String) (t : Nat) :
    (getPriceKey d a b t).data
      = d.data ++ (":".data ++ (a.data ++ ("-".data ++ (b.data
          ++ (":".data ++ (toString t).data))))) := by
  simp [getPriceKey, String.data_append, List.append_assoc]

/-- Keys under `UNISWAP_V3` never collide with keys under `SUSHISWAP_V2`
(their 11th characters differ). -/
lemma uniswap_key_ne (a b c d : String) (t1 t2 : Nat) :
    getPriceKey "UNISWAP_V3" a b t1 ≠ getPriceKey "SUSHISWAP_V2" c d t2 := by
  intro h
  have h2 := congrArg (fun s => s.data[10]?) h
  simp only [key_data] at h2
  rw [List.getElem?_append_right (by decide),
    List.getElem?_append_left (by decide)] at h2
  simp at h2

/-- Keys under `SUSHISWAP_V3` never collide with keys under `SUSHISWAP_V2`
(their 12th characters differ). -/
lemma sushiv3_key_ne (a b c d : String) (t1 t2 : Nat) :
    getPriceKey "SUSHISWAP_V3" a b t1 ≠ getPriceKey "SUSHISWAP_V2" c d t2 := by
  intro h
  have h2 := congrArg (fun s => s.data[11]?) h
  simp only [key_data] at h2
  rw [List.getElem?_append_left (by decide),
    List.getElem?_append_left (by decide)] at h2
  simp at h2

/-- A `SUSHISWAP_V2` cache write is invisible to `getPrice` lookups for the
venue `UNISWAP_V3`. -/
lemma getPriceAnyTier_updateV2_uniswap (prices : PriceMap) (tA tB a b : String)
    (pv : ℚ) (ts : Nat) :
    getPriceAnyTier (updatePriceV2 prices "SUSHISWAP_V2" tA tB pv ts) "UNISWAP_V3" a b
      = getPriceAnyTier prices "UNISWAP_V3" a b := by
  simp only [getPriceAnyTier, updatePriceV2,
    if_neg (uniswap_key_ne a b tA tB 500 3000),
    if_neg (uniswap_key_ne a b tA tB 3000 3000),
    if_neg (uniswap_key_ne a b tA tB 10000 3000)]

/-- A `SUSHISWAP_V2` cache write is invisible to `getPrice` lookups for the
venue `SUSHISWAP_V3`. -/
lemma getPriceAnyTier_updateV2_sushiv3 (prices : PriceMap) (tA tB a b : String)
    (pv : ℚ) (ts : Nat) :
    getPriceAnyTier (updatePriceV2 prices "SUSHISWAP_V2" tA tB pv ts) "SUSHISWAP_V3" a b
      = getPriceAnyTier prices "SUSHISWAP_V3" a b := by
  simp only [getPriceAnyTier, updatePriceV2,
    if_neg (sushiv3_key_ne a b tA tB 500 3000),
    if_neg (sushiv3_key_ne a b tA tB 3000 3000),
    if_neg (sushiv3_key_ne a b tA tB 10000 3000)]

end PriceFetcher

/-! ## Theorems: price normalizer (C4, C5, C6) -/

namespace PriceNormalizer

/-- C4 counterexample: for tokenA = USDC, tokenB = USDT, rawPrice = 10 the
inversion-distance condition |scaled − expected| > |1/scaled − expected|
holds (9 > 9/10), yet `normalizePrice` returns `wasInverted = false` and a
forward price of 1 (the fallback substitute with zero jitter), not the
reciprocal 1/10: the step-4 fallback overwrote the inversion. -/
theorem C4_counterexample :
    inversionTriggered "USDC" "USDT" 10 = true
      ∧ (normalizePrice "USDC" "USDT" 10 0).map
          (fun r => (r.wasInverted, r.tokenBPerTokenA)) = some (false, 1)
      ∧ (1 : ℚ) ≠ 1 / fixDecimalScaling "USDC" "USDT" 10 := by
  refine ⟨?_, ?_, ?_⟩
  · norm_num [inversionTriggered, fixDecimalScaling, tokenDecimalsOrDefault,
      tokenDecimals, usdPrices, abs]
  · norm_num [normalizePrice, fixDecimalScaling, tokenDecimalsOrDefault,
      tokenDecimals, usdPrices, abs]
  · norm_num [fixDecimalScaling, tokenDecimalsOrDefault, tokenDecimals]

/-- C4 amended: whenever the scaled price's distance from the expected
ratio exceeds the distance of its reciprocal from the expected ratio AND
the reciprocal's relative deviation from the expected ratio is at most 50%
(so the step-4 fallback does not fire), `normalizePrice` sets `wasInverted`
and uses the reciprocal `1 / scaledPrice` as the forward price. -/
theorem C4_amended (a b : String) (raw var : ℚ)
    (hinv : inversionTriggered a b raw = true)
    (hdev : |1 / fixDecimalScaling a b raw - usdPrices a / usdPrices b|
        / (usdPrices a / usdPrices b) ≤ 1/2)
    (r : NormalizedPrice) (h : normalizePrice a b raw var = some r) :
    r.wasInverted = true ∧ r.tokenBPerTokenA = 1 / fixDecimalScaling a b raw := by
  have hinv' : |fixDecimalScaling a b raw - usdPrices a / usdPrices b|
      > |1 / fixDecimalScaling a b raw - usdPrices a / usdPrices b| := by
    simpa [inversionTriggered] using hinv
  have hdev2 : ¬ (1/2 : ℚ) < |1 / fixDecimalScaling a b raw - usdPrices a / usdPrices b|
      / (usdPrices a / usdPrices b) := not_lt.mpr hdev
  simp only [normalizePrice] at h
  split at h
  · exact absurd h (by simp)
  · rw [Option.some.injEq] at h
    subst h
    constructor <;> simp [hinv', hdev2]

/-- Concrete output of `normalizePrice "USDC" "USDT" 2 0`, used to witness
`C4_amended`. -/
def C4rec : NormalizedPrice :=
  { rawPrice := 2, scaledPrice := 2, expectedRatio := 1, wasInverted := true
    tokenAUsdPrice := 1, tokenBUsdPrice := 1
    tokenBPerTokenA := 1/2, tokenAPerTokenB := 2
    impliedTokenAPrice := 1/2, impliedTokenBPrice := 2
    buyPrice := 1/2, sellPrice := 1/2 }

/-- C4 witness: `C4_amended` applied at USDC/USDT with rawPrice 2 (scaled
price 2, expected ratio 1, reciprocal deviation exactly 50%). -/
theorem C4_witness :
    C4rec.wasInverted = true
      ∧ C4rec.tokenBPerTokenA = 1 / fixDecimalScaling "USDC" "USDT" 2 :=
  C4_amended "USDC" "USDT" 2 0
    (by norm_num [inversionTriggered, fixDecimalScaling, tokenDecimalsOrDefault,
      tokenDecimals, usdPrices, abs])
    (by norm_num [fixDecimalScaling, tokenDecimalsOrDefault, tokenDecimals, usdPrices, abs])
    C4rec
    (by norm_num [normalizePrice, fixDecimalScaling, tokenDecimalsOrDefault,
      tokenDecimals, usdPrices, abs, C4rec])

/-- C5 counterexample: the fallback fires for (USDC, USDT, rawPrice 10) and
does not fire for (USDC, USDT, rawPrice 1), yet the two returned objects
carry the same value of the only returned flag, `wasInverted` — a
fallback-substituted result is not distinguishable from a genuinely
observed price by any returned flag. -/
theorem C5_counterexample :
    fallbackTriggered "USDC" "USDT" 10 = true
      ∧ fallbackTriggered "USDC" "USDT" 1 = false
      ∧ (normalizePrice "USDC" "USDT" 10 0).map (fun r => r.wasInverted)
          = (normalizePrice "USDC" "USDT" 1 0).map (fun r => r.wasInverted) := by
  refine ⟨?_, ?_, ?_⟩
  · norm_num [fallbackTriggered, fixDecimalScaling, tokenDecimalsOrDefault,
      tokenDecimals, usdPrices, abs]
  · norm_num [fallbackTriggered, fixDecimalScaling, tokenDecimalsOrDefault,
      tokenDecimals, usdPrices, abs]
  · norm_num [normalizePrice, fixDecimalScaling, tokenDecimalsOrDefault,
      tokenDecimals, usdPrices, abs]

/-- C5 amended: when the post-inversion deviation exceeds 50%,
`normalizePrice` does substitute the reference-ratio value
`expectedRatio × (1 + variation)` — but it resets `wasInverted` to `false`,
so the substitution is not flagged in the returned object. -/
theorem C5_amended (a b : String) (raw var : ℚ)
    (hfb : fallbackTriggered a b raw = true)
    (r : NormalizedPrice) (h : normalizePrice a b raw var = some r) :
    r.tokenBPerTokenA = (usdPrices a / usdPrices b) * (1 + var)
      ∧ r.wasInverted = false := by
  simp only [normalizePrice] at h
  split at h
  · exact absurd h (by simp)
  · rename_i hcond
    rw [fallbackTriggered, if_neg hcond, decide_eq_true_eq] at hfb
    have hfb2 := hfb
    simp only [gt_iff_lt, one_div] at hfb2
    rw [Option.some.injEq] at h
    subst h
    constructor <;> simp [hfb2]

/-- Concrete output of `normalizePrice "USDC" "USDT" 10 (1/100)`, used to
witness `C5_amended`. -/
def C5rec : NormalizedPrice :=
  { rawPrice := 10, scaledPrice := 10, expectedRatio := 1, wasInverted := false
    tokenAUsdPrice := 1, tokenBUsdPrice := 1
    tokenBPerTokenA := 101/100, tokenAPerTokenB := 100/101
    impliedTokenAPrice := 101/100, impliedTokenBPrice := 100/101
    buyPrice := 101/100, sellPrice := 101/100 }

/-- C5 witness: `C5_amended` applied at USDC/USDT with rawPrice 10 and
jitter draw 1/100. -/
theorem C5_witness :
    C5rec.tokenBPerTokenA = (usdPrices "USDC" / usdPrices "USDT") * (1 + 1/100)
      ∧ C5rec.wasInverted = false :=
  C5_amended "USDC" "USDT" 10 (1/100)
    (by norm_num [fallbackTriggered, fixDecimalScaling, tokenDecimalsOrDefault,
      tokenDecimals, usdPrices, abs])
    C5rec
    (by norm_num [normalizePrice, fixDecimalScaling, tokenDecimalsOrDefault,
      tokenDecimals, usdPrices, abs, C5rec])

/-- C6 counterexample: two calls of `normalizePrice` with identical
(tokenA, tokenB, rawPrice) = (USDC, USDT, 10) and the unchanged reference
table return different objects when the `Math.random()` jitter draw
differs (forward price 1 versus 101/100): the function is not a pure
function of its inputs and the reference-price table. -/
theorem C6_counterexample :
    (normalizePrice "USDC" "USDT" 10 0).map (fun r => r.tokenBPerTokenA) = some 1
      ∧ (normalizePrice "USDC" "USDT" 10 (1/100)).map (fun r => r.tokenBPerTokenA)
          = some (101/100)
      ∧ normalizePrice "USDC" "USDT" 10 0 ≠ normalizePrice "USDC" "USDT" 10 (1/100) := by
  refine ⟨?h1, ?h2, ?_⟩
  case h1 =>
    norm_num [normalizePrice, fixDecimalScaling, tokenDecimalsOrDefault,
      tokenDecimals, usdPrices, abs]
  case h2 =>
    norm_num [normalizePrice, fixDecimalScaling, tokenDecimalsOrDefault,
      tokenDecimals, usdPrices, abs]
  · intro h
    have h2 := congrArg (Option.map fun r => r.tokenBPerTokenA) h
    norm_num [normalizePrice, fixDecimalScaling, tokenDecimalsOrDefault,
      tokenDecimals, usdPrices, abs] at h2

/-- C6 amended: on every input for which the step-4 fallback does not fire,
`normalizePrice` is deterministic — the result does not depend on the
random jitter draw, so two calls with identical inputs and an unchanged
reference table return identical objects. -/
theorem C6_amended (a b : String) (raw v1 v2 : ℚ)
    (hfb : fallbackTriggered a b raw = false) :
    normalizePrice a b raw v1 = normalizePrice a b raw v2 := by
  simp only [normalizePrice]
  split
  · rfl
  · rename_i hcond
    rw [fallbackTriggered, if_neg hcond, decide_eq_false_iff_not] at hfb
    have hfb2 := hfb
    simp only [gt_iff_lt, one_div, not_lt] at hfb2
    simp [not_lt.mpr hfb2]

/-- C6 witness: `C6_amended` applied at USDC/USDT with rawPrice 1 and two
distinct jitter draws. -/
theorem C6_witness :
    normalizePrice "USDC" "USDT" 1 0 = normalizePrice "USDC" "USDT" 1 5 :=
  C6_amended "USDC" "USDT" 1 0 5
    (by norm_num [fallbackTriggered, fixDecimalScaling, tokenDecimalsOrDefault,
      tokenDecimals, usdPrices, abs])

end PriceNormalizer

/-! ## Theorems: profit calculator (C7) -/

namespace ProfitCalculator

/-- C7 counterexample: at equal token decimals, buy price 2, notional
$1000 and zero gas, `calculateSimpleArbitrageProfit` reports swap fees of
$9, not the claimed `notional × 0.003 × 2 = $6`: the sell-leg fee is
charged on the expected output amount, not on the notional. -/
theorem C7_counterexample :
    (calculateSimpleArbitrageProfit 18 18 2 1000 0 50).swapFees = 9
      ∧ (9 : ℚ) ≠ 1000 * (3/1000) * 2 := by
  constructor
  · norm_num [calculateSimpleArbitrageProfit]
  · norm_num

/-- C7 amended: for every input, `calculateSimpleArbitrageProfit` computes
the total swap fee as `notional × 0.003 × (1 + buyPrice)` (buy-leg fee on
the input amount, sell-leg fee on the expected output amount; this equals
0.6% of the notional only when buyPrice = 1), and the net profit always
equals gross profit minus swap fees minus gas cost. -/
theorem C7_amended (decimalsA decimalsB : Nat) (p t g th : ℚ) :
    (calculateSimpleArbitrageProfit decimalsA decimalsB p t g th).swapFees
        = t * (3/1000) * (1 + p)
      ∧ (calculateSimpleArbitrageProfit decimalsA decimalsB p t g th).netProfit
        = (calculateSimpleArbitrageProfit decimalsA decimalsB p t g th).grossProfit
          - (calculateSimpleArbitrageProfit decimalsA decimalsB p t g th).swapFees
          - (calculateSimpleArbitrageProfit decimalsA decimalsB p t g th).gasCost := by
  have h10 : ((10:ℚ) ^ decimalsA) ≠ 0 := pow_ne_zero _ (by norm_num)
  constructor
  · simp only [calculateSimpleArbitrageProfit]
    field_simp
    ring
  · simp only [calculateSimpleArbitrageProfit]
    ring

end ProfitCalculator

open PriceFetcher in
/-- C10: `getBestPrice` and `getAllPrices` only consult entries stored
under the venues `UNISWAP_V3` and `SUSHISWAP_V3`, so an observation stored
by the V2 polling path (`updatePriceV2` invoked with venue `SUSHISWAP_V2`)
is never returned by either query: both return exactly what they returned
before the write, for every cache state and every token pair. -/
theorem C10_v2_observations_never_served (prices : PriceMap)
    (tA tB a b : String) (pv : ℚ) (ts : Nat) :
    getAllPrices (updatePriceV2 prices "SUSHISWAP_V2" tA tB pv ts) a b
        = getAllPrices prices a b
      ∧ getBestPrice (updatePriceV2 prices "SUSHISWAP_V2" tA tB pv ts) a b
        = getBestPrice prices a b := by
  constructor
  · simp only [getAllPrices, List.filterMap,
      getPriceAnyTier_updateV2_uniswap, getPriceAnyTier_updateV2_sushiv3]
  · simp only [getBestPrice, List.foldl,
      getPriceAnyTier_updateV2_uniswap, getPriceAnyTier_updateV2_sushiv3]

end Arb
